import Mathlib

/-!
Shallow embedding of the botium-connector-dialogflow connector (src/index.js)
and proofs about its specified behaviour.

JavaScript values that the connector inspects are modelled explicitly:
numbers are `Int` (no claim depends on float behaviour), `NaN` is the
`none` of `Option Int`, and `undefined`/`null` are constructors of
`JsScalar`. Fallible code is modelled with `Except`.
-/

/-- Model of the JavaScript scalar values flowing through the connector:
`undefined`, `null`, numbers (integers plus NaN), strings and booleans. -/
inductive JsScalar where
  | jsUndefined
  | jsNull
  | jsNum (n : Int)
  | jsNaN
  | jsStr (s : String)
  | jsBool (b : Bool)
  deriving DecidableEq, Repr

/-- lodash `_.isNil`: true exactly on `null` and `undefined`. -/
def JsScalar.isNil : JsScalar → Bool
  | .jsUndefined => true
  | .jsNull => true
  | _ => false

/-- lodash `_.isString`. -/
def JsScalar.isString : JsScalar → Bool
  | .jsStr _ => true
  | _ => false

/-- JavaScript `value.length` read off a string (0 for non-strings, where
the property is `undefined`, i.e. falsy). -/
def JsScalar.strLen : JsScalar → Nat
  | .jsStr s => s.length
  | _ => 0

/-- JavaScript template-literal string conversion of a scalar. -/
def JsScalar.jsToString : JsScalar → String
  | .jsUndefined => "undefined"
  | .jsNull => "null"
  | .jsNum n => toString n
  | .jsNaN => "NaN"
  | .jsStr s => s
  | .jsBool b => if b then "true" else "false"

/-- Leading-whitespace skip of `parseInt`. -/
def skipWs : List Char → List Char
  | [] => []
  | c :: rest => if c.isWhitespace then skipWs rest else c :: rest

/-- The leading digit run of `parseInt`. -/
def leadingDigits : List Char → List Char
  | [] => []
  | c :: rest => if c.isDigit then c :: leadingDigits rest else []

/-- Numeric value of a digit run. -/
def digitsVal (acc : Nat) : List Char → Nat
  | [] => acc
  | c :: rest => digitsVal (acc * 10 + (c.toNat - '0'.toNat)) rest

/-- JavaScript `parseInt` on a string (decimal): skip leading whitespace,
optional sign, then a leading digit run; no digits means NaN (`none`). -/
def parseIntStr (s : String) : Option Int :=
  let cs := skipWs s.data
  let signed : Bool × List Char :=
    match cs with
    | '-' :: r => (true, r)
    | '+' :: r => (false, r)
    | _ => (false, cs)
  let ds := leadingDigits signed.2
  if ds.isEmpty then none
  else if signed.1 then some (-(digitsVal 0 ds : Int)) else some (digitsVal 0 ds : Int)

/-- JavaScript `parseInt` applied to an arbitrary value: the argument is
coerced to a string first, then parsed; the result is an integer or NaN.
`parseInt` is total — it never throws. -/
def jsParseInt (v : JsScalar) : Option Int :=
  parseIntStr v.jsToString

/-- The call to `parseInt` as it sits inside the `try` block of
`_createCustomContext`: it is total, so it always returns `Except.ok`. -/
def jsParseIntTry (v : JsScalar) : Except String (Option Int) :=
  Except.ok (jsParseInt v)

/-- Opaque result of the external `structjson.jsonToStructProto` codec
(an external collaborator per the spec); modelled as an injection from the
raw JSON payload. -/
structure StructProto where
  json : String
  deriving DecidableEq, Repr

/-- The external codec `structjson.jsonToStructProto`, modelled as the
opaque injection. -/
def jsonToStructProto (json : String) : StructProto :=
  ⟨json⟩

/-- A Dialogflow context record as built by the connector: full context
path, numeric lifespan counter (NaN possible), optional parameter struct. -/
structure Context where
  name : String
  lifespanCount : Option Int
  parameters : Option StructProto
  deriving DecidableEq, Repr

/-- The Google SDK `contextClient.contextPath(project, session, context)`
path template (external collaborator). -/
def contextPathOf (projectId conversationId contextName : String) : String :=
  "projects/" ++ projectId ++ "/agent/sessions/" ++ conversationId ++
    "/contexts/" ++ contextName

/-- `_createCustomContext(contextName, contextLifespan, contextParameters)`
from src/index.js lines 311 to 328: builds the context path, converts the
lifespan with `parseInt` inside a try/catch whose catch branch defaults to
lifespan 1, and attaches converted parameters when present. -/
def _createCustomContext (projectId conversationId contextName : String)
    (contextLifespan : JsScalar) (contextParameters : Option String) : Context :=
  let contextPath := contextPathOf projectId conversationId contextName
  let lifespan :=
    match jsParseIntTry contextLifespan with
    | .ok n => n
    | .error _ => some 1
  { name := contextPath
    lifespanCount := lifespan
    parameters := contextParameters.map jsonToStructProto }

/-- One iteration of the `customContexts.forEach` merge in `UserSays`
(src/index.js lines 139 to 146): find the first context with the same name;
replace it in place when found, append otherwise. -/
def mergeOneContext (contexts : List Context) (customContext : Context) : List Context :=
  match contexts.findIdx? (fun c => c.name == customContext.name) with
  | some index => contexts.set index customContext
  | none => contexts ++ [customContext]

/-- The whole `customContexts.forEach` loop: sequential merge of each
custom context into the pending collection. -/
def mergeCustomContexts (contexts : List Context) (customContexts : List Context) : List Context :=
  customContexts.foldl mergeOneContext contexts

/-- Capability values as the connector stores them: strings, booleans,
string lists, numbers. Absence from the caps object is `none` at lookup. -/
inductive CapVal where
  | str (s : String)
  | boolean (b : Bool)
  | strList (l : List String)
  | num (n : Int)
  deriving DecidableEq, Repr

/-- The capabilities object, as an ordered association list (JS object). -/
def Caps := List (String × CapVal)

/-- Property lookup on the caps object. -/
def getCap (caps : Caps) (k : String) : Option CapVal :=
  (caps.find? (fun kv => kv.1 == k)).map (fun kv => kv.2)

/-- The `Defaults` object of src/index.js lines 28 to 34. -/
def Defaults : Caps :=
  [ ("DIALOGFLOW_LANGUAGE_CODE", .str "en-US")
  , ("DIALOGFLOW_FORCE_INTENT_RESOLUTION", .boolean true)
  , ("DIALOGFLOW_BUTTON_EVENTS", .boolean true)
  , ("DIALOGFLOW_ENABLE_KNOWLEDGEBASE", .boolean false)
  , ("DIALOGFLOW_FALLBACK_INTENTS", .strList ["Default Fallback Intent"]) ]

/-- `Object.assign(\x7b\x7d, defaults, caps)`: keys of `defaults` first (values
overridden by `caps` when present), then the keys only `caps` has. -/
def objAssignCaps (defaults caps : Caps) : Caps :=
  (defaults.map fun kv =>
    match getCap caps kv.1 with
    | some v => (kv.1, v)
    | none => kv) ++
  caps.filter (fun kv => ¬ defaults.any (fun d => d.1 == kv.1))

/-- JavaScript truthiness of a property read from the caps object. -/
def truthyCap : Option CapVal → Bool
  | none => false
  | some (.str s) => ¬ s.isEmpty
  | some (.boolean b) => b
  | some (.strList _) => true
  | some (.num n) => n ≠ 0

/-- lodash `_.isArray` on a caps property. -/
def isArrayCap : Option CapVal → Bool
  | some (.strList _) => true
  | _ => false

/-- lodash `_.isBoolean` on a caps property. -/
def isBooleanCap : Option CapVal → Bool
  | some (.boolean _) => true
  | _ => false

/-- lodash `_.isString` on a caps property. -/
def isStringCap : Option CapVal → Bool
  | some (.str _) => true
  | _ => false

/-- The condition of the knowledge-base type check on src/index.js line 50,
with its parenthesisation as written: the `!_.isString(kb)` sits inside the
argument of `_.isBoolean`, so the checked value is the JS `&&` of the cap
and that boolean. -/
def kbCheckThrows (kb : Option CapVal) : Bool :=
  ¬ isArrayCap kb ∧
    ¬ isBooleanCap (if truthyCap kb then some (.boolean (¬ isStringCap kb)) else kb)

/-- Lexicographic string comparison (the default JS array sort order on
key strings), computed on the character lists. -/
def strLeB (a b : String) : Bool :=
  go a.data b.data
where
  go : List Char → List Char → Bool
    | [], _ => true
    | _ :: _, [] => false
    | x :: xs, y :: ys =>
        if x.toNat < y.toNat then true
        else if y.toNat < x.toNat then false
        else go xs ys

/-- Key starts-with test, computed on the character lists. -/
def strStartsWithB (k p : String) : Bool :=
  p.data.isPrefixOf k.data

/-- Drop of the first `n` characters, computed on the character list. -/
def strDropB (k : String) (n : Nat) : String :=
  ⟨k.data.drop n⟩

/-- Insertion step for string sorting (the lodash `.sort()` of the keys). -/
def insertSorted (s : String) : List String → List String
  | [] => [s]
  | t :: rest => if strLeB s t then s :: t :: rest else t :: insertSorted s rest

/-- Lexicographic string sort used for the context-suffix keys. -/
def sortStrings : List String → List String
  | [] => []
  | s :: rest => insertSorted s (sortStrings rest)

/-- `_getContextSuffixes` from src/index.js lines 287 to 294: the sorted
keys starting with `DIALOGFLOW_INPUT_CONTEXT_NAME`, with the leading
capability name stripped. -/
def _getContextSuffixes (caps : Caps) : List String :=
  (sortStrings ((caps.map Prod.fst).filter
      (fun k => strStartsWithB k "DIALOGFLOW_INPUT_CONTEXT_NAME"))).map
    (fun k => strDropB k "DIALOGFLOW_INPUT_CONTEXT_NAME".length)

/-- The per-suffix requirement checked by `Validate`: both the name and
the matching lifespan capability must be truthy. -/
def suffixMissing (caps : Caps) (sfx : String) : Bool :=
  ¬ (truthyCap (getCap caps ("DIALOGFLOW_INPUT_CONTEXT_NAME" ++ sfx)) ∧
     truthyCap (getCap caps ("DIALOGFLOW_INPUT_CONTEXT_LIFESPAN" ++ sfx)))

/-- `Validate` from src/index.js lines 42 to 62: applies the defaults,
fails fast with a descriptive `Error` on a missing required capability, on
an ill-typed knowledge-base capability, and on a context suffix missing
its name or lifespan; otherwise resolves. A thrown error is `Except.error`
carrying the message. -/
def Validate (rawCaps : Caps) : Except String Unit :=
  let caps := objAssignCaps Defaults rawCaps
  if ¬ truthyCap (getCap caps "DIALOGFLOW_PROJECT_ID") then
    .error "DIALOGFLOW_PROJECT_ID capability required"
  else if ¬ truthyCap (getCap caps "DIALOGFLOW_CLIENT_EMAIL") then
    .error "DIALOGFLOW_CLIENT_EMAIL capability required"
  else if ¬ truthyCap (getCap caps "DIALOGFLOW_PRIVATE_KEY") then
    .error "DIALOGFLOW_PRIVATE_KEY capability required"
  else if kbCheckThrows (getCap caps "DIALOGFLOW_ENABLE_KNOWLEDGEBASE") then
    .error "DIALOGFLOW_ENABLE_KNOWLEDGEBASE capability has to be an array of knowledge base identifiers, or a boolean"
  else
    match (_getContextSuffixes caps).find? (suffixMissing caps) with
    | some sfx =>
        .error ("DIALOGFLOW_INPUT_CONTEXT_NAME" ++ sfx ++
          " and DIALOGFLOW_INPUT_CONTEXT_LIFESPAN" ++ sfx ++ " capability required")
    | none => .ok ()

/-- An entity record returned by the entity extraction: a dotted path name
and the stringified leaf value. -/
structure Entity where
  name : String
  value : String
  deriving DecidableEq, Repr

/-- A protobuf `Value` field of the response parameter tree
(`queryResult.parameters.fields` values). The constructor fixes the
`kind` discriminator; the four scalar kinds carry the JS value stored
under that key, `structValue` carries nested fields, `listValue` carries
element values, and any other `kind` string is `unsupported`. -/
inductive PField where
  | numberValue (v : JsScalar)
  | stringValue (v : JsScalar)
  | boolValue (v : JsScalar)
  | nullValue (v : JsScalar)
  | structValue (fields : List (String × PField))
  | listValue (values : List PField)
  | unsupported (kind : String)

/-- `${keyPrefix ? keyPrefix + '.' : ''}${key}` in
`_extractEntitiesFromFields`. -/
def dotJoin (keyPfx key : String) : String :=
  if keyPfx.isEmpty then key else keyPfx ++ "." ++ key

/-- The emission guard and record of the scalar branch of
`_extractEntityValues` (src/index.js lines 355 to 363):
`!_.isNil(value) && (!_.isString(value) || value.length)`. -/
def scalarEntity (key : String) (v : JsScalar) : List Entity :=
  if ¬ v.isNil ∧ (¬ v.isString ∨ 0 < v.strLen) then
    [{ name := key, value := v.jsToString }]
  else
    []

mutual

/-- `_extractEntityValues(key, field)` from src/index.js lines 354 to 379:
scalar kinds emit at most one entity, `structValue` recurses into its
fields, `listValue` recurses with zero-based indices appended to the key,
any other kind is skipped. -/
def _extractEntityValues (key : String) : PField → List Entity
  | .numberValue v => scalarEntity key v
  | .stringValue v => scalarEntity key v
  | .boolValue v => scalarEntity key v
  | .nullValue v => scalarEntity key v
  | .structValue fields => _extractEntitiesFromFields key fields
  | .listValue values => _extractListValues key 0 values
  | .unsupported _ => []

/-- `_extractEntitiesFromFields(keyPrefix, fields)` from src/index.js
lines 348 to 352: the `reduce` over the field keys in order. -/
def _extractEntitiesFromFields (keyPfx : String) : List (String × PField) → List Entity
  | [] => []
  | (key, f) :: rest =>
      _extractEntityValues (dotJoin keyPfx key) f ++ _extractEntitiesFromFields keyPfx rest

/-- The `listValue.values.reduce` of `_extractEntityValues`
(src/index.js lines 370 to 372), with the running element index. -/
def _extractListValues (key : String) (i : Nat) : List PField → List Entity
  | [] => []
  | f :: rest =>
      _extractEntityValues (key ++ "." ++ toString i) f ++ _extractListValues key (i + 1) rest

end

/-- Dot-join of a path of keys: the keys in order with `.` between
consecutive keys. -/
def joinPath : List String → String
  | [] => ""
  | [k] => k
  | k :: l => k ++ "." ++ joinPath l

/-- The spec-side predicate for which scalar leaves produce an entity,
following the claim's words: leaves whose value is null/undefined or an
empty string are skipped. -/
def specScalarKeep (v : JsScalar) : Bool :=
  ¬ v.isNil ∧ v ≠ .jsStr ""

mutual

/-- Spec-side leaves of a parameter field, following the claim's words:
one pair per kept scalar leaf, carrying the relative path of field keys
(numeric indices for list elements) and the stringified value. -/
def specLeaves : PField → List (List String × String)
  | .numberValue v => if specScalarKeep v then [([], v.jsToString)] else []
  | .stringValue v => if specScalarKeep v then [([], v.jsToString)] else []
  | .boolValue v => if specScalarKeep v then [([], v.jsToString)] else []
  | .nullValue v => if specScalarKeep v then [([], v.jsToString)] else []
  | .structValue fields => specLeavesFields fields
  | .listValue values => specLeavesList 0 values
  | .unsupported _ => []

/-- Spec-side leaves of a field list: each field key is prepended to the
paths of its leaves. -/
def specLeavesFields : List (String × PField) → List (List String × String)
  | [] => []
  | (k, f) :: rest =>
      (specLeaves f).map (fun pv => (k :: pv.1, pv.2)) ++ specLeavesFields rest

/-- Spec-side leaves of a list value: the zero-based element index is
prepended to the paths of its leaves. -/
def specLeavesList (i : Nat) : List PField → List (List String × String)
  | [] => []
  | f :: rest =>
      (specLeaves f).map (fun pv => (toString i :: pv.1, pv.2)) ++ specLeavesList (i + 1) rest

end

/-- The entity list the claim describes, following its words: one entity
per kept scalar leaf, named by the dot-joined path of field keys. -/
def specExtractEntities (fields : List (String × PField)) : List Entity :=
  (specLeavesFields fields).map (fun pv => { name := joinPath pv.1, value := pv.2 })

/-- The detected intent inside `queryResult`. -/
structure Intent where
  displayName : String
  deriving DecidableEq, Repr

/-- A media attachment of a normalized bot message. -/
structure BMedia where
  mediaUri : String
  mimeType : String
  altText : Option String
  deriving DecidableEq, Repr

/-- A button of a normalized bot message. -/
structure BButton where
  text : String
  payload : Option String
  deriving DecidableEq, Repr

/-- A card of a normalized bot message. -/
structure BCard where
  text : Option String
  subtext : Option String
  image : Option BMedia
  buttons : Option (List BButton)
  deriving DecidableEq, Repr

/-- A button of a Dialogflow `card` response. -/
structure DFCardButton where
  text : String
  postback : Option String
  deriving DecidableEq, Repr

/-- A Dialogflow `card` response payload. -/
structure DFCard where
  title : Option String
  imageUri : Option String
  buttons : Option (List DFCardButton)
  deriving DecidableEq, Repr

/-- A Dialogflow image payload (`imageUri` plus accessibility text). -/
structure DFImage where
  imageUri : String
  accessibilityText : Option String
  deriving DecidableEq, Repr

/-- A button of a Dialogflow `basicCard` response; `openUriAction` is the
`openUriAction && openUriAction.uri` read collapsed to its uri. -/
structure DFBasicCardButton where
  title : String
  openUriAction : Option String
  deriving DecidableEq, Repr

/-- A Dialogflow `basicCard` response payload. -/
structure DFBasicCard where
  title : Option String
  image : Option DFImage
  buttons : Option (List DFBasicCardButton)
  deriving DecidableEq, Repr

/-- The `info` object of a list/carousel item. -/
structure DFInfo where
  key : Option String
  deriving DecidableEq, Repr

/-- An item of a Dialogflow `listSelect` or `carouselSelect` response. -/
structure DFItem where
  title : Option String
  description : Option String
  image : Option DFImage
  info : Option DFInfo
  deriving DecidableEq, Repr

/-- A Dialogflow `listSelect` response payload. -/
structure DFListSelect where
  title : Option String
  items : List DFItem
  deriving DecidableEq, Repr

/-- A Dialogflow `suggestions` response payload; the inner array may be
absent. Each element is the suggestion's `title`. -/
structure DFSuggestions where
  suggestions : Option (List String)
  deriving DecidableEq, Repr

/-- A Dialogflow `linkOutSuggestion` response payload. -/
structure DFLinkOut where
  destinationName : String
  uri : Option String
  deriving DecidableEq, Repr

/-- One fulfillment message of the service response: at most one variant
payload is populated, plus the platform discriminator. `text` is the
`text.text` array, `simpleResponses` the `textToSpeech` values, `image`
the `image.imageUri`, `quickReplies` the quick-reply strings,
`carouselSelect` the item list, `suggestions` the suggestion titles. -/
structure FulfillmentMessage where
  platform : Option String
  text : Option (List String)
  simpleResponses : Option (List String)
  image : Option String
  quickReplies : Option (List String)
  card : Option DFCard
  basicCard : Option DFBasicCard
  listSelect : Option DFListSelect
  carouselSelect : Option (List DFItem)
  suggestions : Option DFSuggestions
  linkOutSuggestion : Option DFLinkOut

/-- A fulfillment message with every variant payload absent. -/
def FulfillmentMessage.empty : FulfillmentMessage :=
  { platform := none, text := none, simpleResponses := none, image := none
    quickReplies := none, card := none, basicCard := none, listSelect := none
    carouselSelect := none, suggestions := none, linkOutSuggestion := none }

/-- The `queryResult` of a service response. -/
structure QueryResult where
  intent : Option Intent
  intentDetectionConfidence : Option Int
  parameters : Option (List (String × PField))
  outputContexts : List Context
  fulfillmentMessages : List FulfillmentMessage

/-- A service response (`responses[0]` of the `detectIntent` result). -/
structure DFResponse where
  queryResult : QueryResult

/-- The `nlp.intent` record built by `_extractIntent`: absent fields are
`undefined` in JS, i.e. `none`. -/
structure NlpIntent where
  name : Option String
  confidence : Option Int
  incomprehension : Option Bool
  deriving DecidableEq, Repr

/-- The capability values `UserSays` and the extractors read, after
`Validate` has applied the defaults. -/
structure ConnCaps where
  projectId : String
  languageCode : String
  buttonEvents : Bool
  outputPlatform : Option String
  forceIntentResolution : Bool
  fallbackIntents : List String
  deriving DecidableEq, Repr

/-- `_extractIntent(response)` from src/index.js lines 330 to 339. -/
def _extractIntent (caps : ConnCaps) (qr : QueryResult) : NlpIntent :=
  match qr.intent with
  | some i =>
      { name := some i.displayName
        confidence := qr.intentDetectionConfidence
        incomprehension :=
          if caps.fallbackIntents.contains i.displayName then some true else none }
  | none => { name := none, confidence := none, incomprehension := none }

/-- `_extractEntities(response)` from src/index.js lines 341 to 346. -/
def _extractEntities (qr : QueryResult) : List Entity :=
  match qr.parameters with
  | some fields => _extractEntitiesFromFields "" fields
  | none => []

/-- The `mime.lookup(uri) || 'application/unknown'` mime-type read;
`mime.lookup` is an external collaborator passed in as a function. -/
def mimeOf (mimeLookup : String → Option String) (uri : String) : String :=
  (mimeLookup uri).getD "application/unknown"

/-- The message fields a response variant populates on the normalized bot
message (besides the constant sender/sourceData/nlp fields). -/
structure BotMsgFields where
  messageText : Option String
  media : Option (List BMedia)
  buttons : Option (List BButton)
  cards : Option (List BCard)
  deriving DecidableEq, Repr

/-- `BotMsgFields` with nothing populated. -/
def BotMsgFields.empty : BotMsgFields :=
  { messageText := none, media := none, buttons := none, cards := none }

/-- The card built from a `listSelect`/`carouselSelect` item
(src/index.js lines 221 to 230 and 232 to 241). -/
def itemToCard (mimeLookup : String → Option String) (item : DFItem) : BCard :=
  { text := item.title
    subtext := item.description
    image := item.image.map (fun img =>
      { mediaUri := img.imageUri
        mimeType := mimeOf mimeLookup img.imageUri
        altText := img.accessibilityText })
    buttons := (item.info.bind DFInfo.key).map (fun k => [{ text := k, payload := none }]) }

/-- The response-variant chain of `UserSays` (src/index.js lines 184 to
253): the first populated variant decides the message fields; `none` when
no known variant matches (`acceptedResponse = false`, the message is not
queued). An empty `simpleResponses` array, which would throw in JS, is
modelled as an absent `messageText`. -/
def normalizeFulfillment (mimeLookup : String → Option String)
    (fm : FulfillmentMessage) : Option BotMsgFields :=
  match fm.text with
  | some ts => some { BotMsgFields.empty with messageText := ts.head? }
  | none =>
  match fm.simpleResponses with
  | some srs => some { BotMsgFields.empty with messageText := srs.head? }
  | none =>
  match fm.image with
  | some uri =>
      some { BotMsgFields.empty with
        media := some [{ mediaUri := uri, mimeType := mimeOf mimeLookup uri, altText := none }] }
  | none =>
  match fm.quickReplies with
  | some qs =>
      some { BotMsgFields.empty with
        buttons := some (qs.map (fun q => { text := q, payload := none })) }
  | none =>
  match fm.card with
  | some c =>
      some { BotMsgFields.empty with
        messageText := c.title
        cards := some [{ text := c.title
                         subtext := none
                         image := c.imageUri.map (fun uri =>
                           { mediaUri := uri
                             mimeType := mimeOf mimeLookup uri
                             altText := none })
                         buttons := c.buttons.map (List.map (fun q =>
                           { text := q.text, payload := q.postback })) }] }
  | none =>
  match fm.basicCard with
  | some bc =>
      some { BotMsgFields.empty with
        messageText := bc.title
        cards := some [{ text := bc.title
                         subtext := none
                         image := bc.image.map (fun img =>
                           { mediaUri := img.imageUri
                             mimeType := mimeOf mimeLookup img.imageUri
                             altText := img.accessibilityText })
                         buttons := bc.buttons.map (List.map (fun q =>
                           { text := q.title, payload := q.openUriAction })) }] }
  | none =>
  match fm.listSelect with
  | some ls =>
      some { BotMsgFields.empty with
        messageText := ls.title
        cards := some (ls.items.map (itemToCard mimeLookup)) }
  | none =>
  match fm.carouselSelect with
  | some items =>
      some { BotMsgFields.empty with
        cards := some (items.map (itemToCard mimeLookup)) }
  | none =>
  match fm.suggestions with
  | some sg =>
      some { BotMsgFields.empty with
        buttons := sg.suggestions.map (List.map (fun t => { text := t, payload := none })) }
  | none =>
  match fm.linkOutSuggestion with
  | some lo =>
      some { BotMsgFields.empty with
        buttons := some [{ text := lo.destinationName, payload := lo.uri }] }
  | none => none

/-- The platform filter of src/index.js lines 172 to 175. -/
def platformFiltered (caps : ConnCaps) (msgs : List FulfillmentMessage) :
    List FulfillmentMessage :=
  msgs.filter (fun f =>
    match caps.outputPlatform with
    | some p => f.platform == some p
    | none => f.platform == some "PLATFORM_UNSPECIFIED" ∨ f.platform == none)

/-- The fulfillment messages `UserSays` iterates: the platform filter,
falling back to the default-platform messages when a configured platform
matched nothing (src/index.js lines 172 to 181). -/
def selectFulfillmentMessages (caps : ConnCaps) (qr : QueryResult) :
    List FulfillmentMessage :=
  let filtered := platformFiltered caps qr.fulfillmentMessages
  if filtered.isEmpty ∧ caps.outputPlatform.isSome then
    qr.fulfillmentMessages.filter (fun f =>
      f.platform == some "PLATFORM_UNSPECIFIED" ∨ f.platform == none)
  else filtered

/-- A message delivered to `queueBotSays` (the constant `sender` and raw
`sourceData` fields are omitted; `nlp` is split into its two parts). -/
structure BotSays where
  nlpIntent : NlpIntent
  nlpEntities : List Entity
  fields : BotMsgFields
  deriving DecidableEq, Repr

/-- The response processing of the `then` block of `UserSays`
(src/index.js lines 157 to 257): the messages delivered to `queueBotSays`
in order — one per accepted fulfillment message, plus the bare intent
message when `DIALOGFLOW_FORCE_INTENT_RESOLUTION` is set and nothing was
accepted. -/
def processResponse (caps : ConnCaps) (mimeLookup : String → Option String)
    (qr : QueryResult) : List BotSays :=
  let nlpI := _extractIntent caps qr
  let ents := _extractEntities qr
  let delivered := (selectFulfillmentMessages caps qr).filterMap (fun fm =>
    (normalizeFulfillment mimeLookup fm).map (fun flds =>
      { nlpIntent := nlpI, nlpEntities := ents, fields := flds }))
  if caps.forceIntentResolution ∧ delivered.isEmpty then
    delivered ++ [{ nlpIntent := nlpI, nlpEntities := ents, fields := BotMsgFields.empty }]
  else delivered

/-- The pending query parameters held on the connector instance. -/
structure QueryParams where
  contexts : List Context
  knowledgeBaseNames : Option (List String)
  deriving DecidableEq, Repr

/-- A `msg.SET_DIALOGFLOW_QUERYPARAMS` override object: fields present on
it win in the `Object.assign` merge of src/index.js line 153. -/
structure QueryParamsPatch where
  contexts : Option (List Context)
  knowledgeBaseNames : Option (List String)
  deriving DecidableEq, Repr

/-- A patch with no fields set. -/
def QueryParamsPatch.empty : QueryParamsPatch :=
  { contexts := none, knowledgeBaseNames := none }

/-- `Object.assign(\x7b\x7d, this.queryParams, mergeQueryParams)`. -/
def applyPatch (qp : QueryParams) (patch : QueryParamsPatch) : QueryParams :=
  { contexts := patch.contexts.getD qp.contexts
    knowledgeBaseNames := patch.knowledgeBaseNames.orElse (fun _ => qp.knowledgeBaseNames) }

/-- A button attached to the user message. -/
structure MsgButton where
  text : Option String
  payload : Option String
  deriving DecidableEq, Repr

/-- A value of the `msg.SET_DIALOGFLOW_CONTEXT` map: an object carrying a
lifespan and optional parameters, or a primitive used as the lifespan
(src/index.js lines 299 to 306). -/
inductive CtxSetVal where
  | obj (lifespan : JsScalar) (parameters : Option String)
  | prim (lifespan : JsScalar)
  deriving DecidableEq, Repr

/-- The user message handed to `UserSays`. -/
structure UserMsg where
  messageText : Option String
  buttons : Option (List MsgButton)
  SET_DIALOGFLOW_CONTEXT : List (String × CtxSetVal)
  SET_DIALOGFLOW_QUERYPARAMS : Option QueryParamsPatch
  deriving DecidableEq, Repr

/-- `_extractCustomContexts(msg)` from src/index.js lines 296 to 309: one
custom context per key of `msg.SET_DIALOGFLOW_CONTEXT`, in key order. -/
def _extractCustomContexts (projectId conversationId : String) (msg : UserMsg) :
    List Context :=
  msg.SET_DIALOGFLOW_CONTEXT.map (fun kv =>
    match kv.2 with
    | .obj lifespan ps => _createCustomContext projectId conversationId kv.1 lifespan ps
    | .prim v => _createCustomContext projectId conversationId kv.1 v none)

/-- JavaScript truthiness of an optional string property. -/
def truthyStr : Option String → Bool
  | some s => ¬ s.isEmpty
  | none => false

/-- JavaScript `a || b` on optional string properties. -/
def jsOrStr (a b : Option String) : Option String :=
  if truthyStr a then a else b

/-- The `queryInput` of an outgoing request: a text query or an event
query (the event object as an ordered key/value list). -/
inductive QueryInput where
  | queryText (text : Option String) (languageCode : String)
  | queryEvent (fields : List (String × String))
  deriving DecidableEq, Repr

/-- `Object.assign(\x7b\x7d, base, extra)` on plain string objects. -/
def objAssignStr (base extra : List (String × String)) : List (String × String) :=
  (base.map fun kv =>
    match extra.find? (fun e => e.1 == kv.1) with
    | some e => (kv.1, e.2)
    | none => kv) ++
  extra.filter (fun e => ¬ base.any (fun b => b.1 == e.1))

/-- The guard of src/index.js line 119: button events enabled, a non-empty
buttons array, and a truthy `text` or `payload` on the first button. -/
def buttonEventTriggered (caps : ConnCaps) (msg : UserMsg) : Bool :=
  caps.buttonEvents &&
    match msg.buttons with
    | some (b0 :: _) => truthyStr b0.text || truthyStr b0.payload
    | _ => false

/-- The `queryInput` construction of `UserSays` (src/index.js lines 119 to
135): on a triggered button event, `JSON.parse` the payload (`payload ||
text` of the first button) — a parsed object is merged over the language
code, a parse failure makes the raw payload the event name; otherwise a
text query with `msg.messageText`. `JSON.parse` (an external builtin) is
passed in, successful parses modelled as string objects. -/
def buildQueryInput (caps : ConnCaps) (jsonParse : String → Option (List (String × String)))
    (msg : UserMsg) : QueryInput :=
  if buttonEventTriggered caps msg then
    let b0 := (msg.buttons.getD []).headD { text := none, payload := none }
    let payload := (jsOrStr b0.payload b0.text).getD ""
    match jsonParse payload with
    | some obj => .queryEvent (objAssignStr [("languageCode", caps.languageCode)] obj)
    | none => .queryEvent [("name", payload), ("languageCode", caps.languageCode)]
  else
    .queryText msg.messageText caps.languageCode

/-- The connector state `UserSays` reads and writes: whether a session
client exists (`Stop` clears it to `null`), the session path, the
conversation id and the pending query parameters. -/
structure DFState where
  sessionClient : Bool
  sessionPath : String
  conversationId : String
  queryParams : QueryParams
  deriving DecidableEq, Repr

/-- The mutation of `this.queryParams` performed by the custom-context
merge (src/index.js lines 137 to 146), before `detectIntent` is called. -/
def pendingQueryParams (caps : ConnCaps) (st : DFState) (msg : UserMsg) : QueryParams :=
  { st.queryParams with
    contexts := mergeCustomContexts st.queryParams.contexts
      (_extractCustomContexts caps.projectId st.conversationId msg) }

/-- An outgoing `detectIntent` request. -/
structure DFRequest where
  session : String
  queryInput : QueryInput
  queryParams : QueryParams
  deriving DecidableEq, Repr

/-- The request `UserSays` sends (src/index.js lines 114 to 154). -/
def buildRequest (caps : ConnCaps) (jsonParse : String → Option (List (String × String)))
    (st : DFState) (msg : UserMsg) : DFRequest :=
  { session := st.sessionPath
    queryInput := buildQueryInput caps jsonParse msg
    queryParams := applyPatch (pendingQueryParams caps st msg)
      (msg.SET_DIALOGFLOW_QUERYPARAMS.getD QueryParamsPatch.empty) }

/-- Everything observable about one `UserSays` call: the promise outcome
(the delivered bot messages on success, the error message on rejection),
the connector state afterwards, and the requests sent to the external
`detectIntent`, in order. -/
structure UserSaysResult where
  result : Except String (List BotSays)
  state : DFState
  requests : List DFRequest

/-- `UserSays(msg)` from src/index.js lines 110 to 262. Without a session
client it rejects with `not built` before anything else happens. Otherwise
it builds the request (mutating `this.queryParams` through the context
merge), calls `detectIntent` once, and either resets
`this.queryParams.contexts` to `[]` and delivers the normalized messages,
or rejects with the wrapped error message. The external `detectIntent`,
`mime.lookup` and `JSON.parse` are passed in as functions. -/
def UserSays (caps : ConnCaps) (mimeLookup : String → Option String)
    (jsonParse : String → Option (List (String × String)))
    (detectIntent : DFRequest → Except String DFResponse)
    (st : DFState) (msg : UserMsg) : UserSaysResult :=
  if ¬ st.sessionClient then
    { result := .error "not built", state := st, requests := [] }
  else
    let qp := pendingQueryParams caps st msg
    let request := buildRequest caps jsonParse st msg
    match detectIntent request with
    | .ok resp =>
        { result := .ok (processResponse caps mimeLookup resp.queryResult)
          state := { st with queryParams := { qp with contexts := [] } }
          requests := [request] }
    | .error err =>
        { result := .error ("Cannot send message to dialogflow container: " ++ err)
          state := { st with queryParams := qp }
          requests := [request] }

/-! Helper lemmas shared by several claim proofs. -/

/-- A nonempty string stays nonempty through length. -/
lemma string_length_pos_iff (s : String) : 0 < s.length ↔ s ≠ "" := by
  cases s with
  | mk data =>
    cases data with
    | nil => simp [String.length]
    | cons c cs => simp [String.length, String.ext_iff]

/-- Gluing a dot-separated prefix into a path head. -/
lemma append_dot_ne (a b : String) : a ++ "." ++ b ≠ "" := by
  intro h
  have h2 := congrArg String.length h
  simp [String.length_append] at h2
  exact absurd h2.1.2 (by decide)

/-- The element found by `findIdx?` satisfies the predicate. -/
lemma findIdx?_some_elem {α : Type} (l : List α) (p : α → Bool) (i : Nat)
    (h : l.findIdx? p = some i) : ∃ x, l[i]? = some x ∧ p x = true := by
  rw [List.findIdx?_eq_some_iff_findIdx_eq] at h
  obtain ⟨hlt, hfi⟩ := h
  refine ⟨l[i], by simp [List.getElem?_eq_getElem hlt], ?_⟩
  subst hfi
  exact List.findIdx_getElem

/-- C1: For every user message, the custom contexts extracted from
`msg.SET_DIALOGFLOW_CONTEXT` are merged into the pending
`queryParams.contexts` collection by name: a context with the same full
context-path name is replaced in place at its index, a new name is
appended at the end, and contexts with other names are left unchanged;
the loop merges each custom context in turn. -/
theorem claim_C1_context_merge (cs : List Context) (c : Context) (rest : List Context) :
    (∀ i, cs.findIdx? (fun x => x.name == c.name) = some i →
      mergeOneContext cs c = cs.set i c) ∧
    (cs.findIdx? (fun x => x.name == c.name) = none →
      mergeOneContext cs c = cs ++ [c]) ∧
    (∀ j x, j < cs.length → cs[j]? = some x → x.name ≠ c.name →
      (mergeOneContext cs c)[j]? = cs[j]?) ∧
    mergeCustomContexts cs (c :: rest) = mergeCustomContexts (mergeOneContext cs c) rest := by
  refine ⟨?_, ?_, ?_, rfl⟩
  · intro i hi
    simp [mergeOneContext, hi]
  · intro h
    simp [mergeOneContext, h]
  · intro j x hj hx hne
    unfold mergeOneContext
    cases hidx : cs.findIdx? (fun y => y.name == c.name) with
    | none => simp [List.getElem?_append, hj]
    | some i =>
        obtain ⟨y, hy, hpy⟩ := findIdx?_some_elem cs _ i hidx
        have hij : i ≠ j := by
          intro e
          subst e
          rw [hy] at hx
          cases hx
          simp only [beq_iff_eq] at hpy
          exact hne hpy
        exact List.getElem?_set_ne hij

/-- Witness for C1 at concrete contexts: replacing the second context of a
two-element collection in place and leaving the first untouched. -/
theorem claim_C1_context_merge_witness :
    mergeOneContext
        [⟨"ctx/a", some 1, none⟩, ⟨"ctx/b", some 2, none⟩] ⟨"ctx/b", some 5, none⟩ =
      List.set [⟨"ctx/a", some 1, none⟩, ⟨"ctx/b", some 2, none⟩] 1 ⟨"ctx/b", some 5, none⟩ ∧
    (mergeOneContext
        [⟨"ctx/a", some 1, none⟩, ⟨"ctx/b", some 2, none⟩] ⟨"ctx/b", some 5, none⟩)[0]? =
      ([⟨"ctx/a", some 1, none⟩, ⟨"ctx/b", some 2, none⟩] : List Context)[0]? := by
  have h := claim_C1_context_merge
    [⟨"ctx/a", some 1, none⟩, ⟨"ctx/b", some 2, none⟩] ⟨"ctx/b", some 5, none⟩ []
  exact ⟨h.1 1 (by decide), h.2.2.1 0 ⟨"ctx/a", some 1, none⟩ (by decide) (by decide) (by decide)⟩

/-- C4: when `queryResult.intent` is present the extracted `nlp.intent`
carries the display name, the detection confidence, and the
incomprehension flag exactly when the display name is one of the
configured fallback intents (undefined otherwise, with default list
`["Default Fallback Intent"]`); with no intent the extracted record is
empty. -/
theorem claim_C4_extract_intent (caps : ConnCaps) (qr : QueryResult) :
    (∀ i, qr.intent = some i →
      _extractIntent caps qr =
        { name := some i.displayName
          confidence := qr.intentDetectionConfidence
          incomprehension :=
            if caps.fallbackIntents.contains i.displayName then some true else none }) ∧
    (qr.intent = none →
      _extractIntent caps qr = { name := none, confidence := none, incomprehension := none }) ∧
    getCap Defaults "DIALOGFLOW_FALLBACK_INTENTS" = some (.strList ["Default Fallback Intent"]) := by
  refine ⟨?_, ?_, by decide⟩
  · intro i hi
    simp [_extractIntent, hi]
  · intro h
    simp [_extractIntent, h]

/-- Witness for C4 at a concrete response carrying the default fallback
intent. -/
theorem claim_C4_extract_intent_witness :
    _extractIntent
        { projectId := "p", languageCode := "en-US", buttonEvents := true
          outputPlatform := none, forceIntentResolution := true
          fallbackIntents := ["Default Fallback Intent"] }
        { intent := some ⟨"Default Fallback Intent"⟩
          intentDetectionConfidence := some 1
          parameters := none, outputContexts := [], fulfillmentMessages := [] } =
      { name := some "Default Fallback Intent", confidence := some 1
        incomprehension := some true } := by
  have h := claim_C4_extract_intent
    { projectId := "p", languageCode := "en-US", buttonEvents := true
      outputPlatform := none, forceIntentResolution := true
      fallbackIntents := ["Default Fallback Intent"] }
    { intent := some ⟨"Default Fallback Intent"⟩
      intentDetectionConfidence := some 1
      parameters := none, outputContexts := [], fulfillmentMessages := [] }
  simpa using h.1 ⟨"Default Fallback Intent"⟩ rfl

/-- C10: the `parseInt` call of `_createCustomContext` never throws, so
the catch branch defaulting the lifespan to 1 is unreachable; a lifespan
argument that does not parse as an integer yields a `NaN` lifespan, not
1. -/
theorem claim_C10_parseint_no_throw (p cid cn : String) (v : JsScalar) (ps : Option String) :
    (jsParseIntTry v).isOk = true ∧
    (jsParseInt v = none →
      (_createCustomContext p cid cn v ps).lifespanCount = none ∧
      (_createCustomContext p cid cn v ps).lifespanCount ≠ some 1) := by
  refine ⟨rfl, fun h => ?_⟩
  constructor
  · simp [_createCustomContext, jsParseIntTry, h]
  · simp [_createCustomContext, jsParseIntTry, h]

/-- Witness for C10 at the non-parsing lifespan `"abc"`. -/
theorem claim_C10_parseint_no_throw_witness :
    (jsParseIntTry (.jsStr "abc")).isOk = true ∧
    (_createCustomContext "p" "conv" "n" (.jsStr "abc") none).lifespanCount = none := by
  have h := claim_C10_parseint_no_throw "p" "conv" "n" (.jsStr "abc") none
  exact ⟨h.1, (h.2 (by decide)).1⟩

/-- C8: calling `UserSays` while no session client exists rejects with
`not built`, sends no request to the external client, and leaves the
state — in particular the stored query parameters — unchanged. -/
theorem claim_C8_not_built (caps : ConnCaps) (mimeLookup : String → Option String)
    (jsonParse : String → Option (List (String × String)))
    (detectIntent : DFRequest → Except String DFResponse)
    (st : DFState) (msg : UserMsg) (h : st.sessionClient = false) :
    UserSays caps mimeLookup jsonParse detectIntent st msg =
      { result := .error "not built", state := st, requests := [] } := by
  simp [UserSays, h]

/-- Witness for C8 at a concrete stopped connector state. -/
theorem claim_C8_not_built_witness :
    UserSays
        { projectId := "p", languageCode := "en-US", buttonEvents := true
          outputPlatform := none, forceIntentResolution := true
          fallbackIntents := ["Default Fallback Intent"] }
        (fun _ => none) (fun _ => none) (fun _ => .error "down")
        { sessionClient := false, sessionPath := "s", conversationId := "c"
          queryParams := { contexts := [⟨"ctx/a", some 1, none⟩], knowledgeBaseNames := none } }
        { messageText := some "hi", buttons := none, SET_DIALOGFLOW_CONTEXT := []
          SET_DIALOGFLOW_QUERYPARAMS := none } =
      { result := .error "not built"
        state :=
          { sessionClient := false, sessionPath := "s", conversationId := "c"
            queryParams := { contexts := [⟨"ctx/a", some 1, none⟩], knowledgeBaseNames := none } }
        requests := [] } :=
  claim_C8_not_built _ _ _ _ _ _ rfl

/-- C6: `Validate` throws a synchronous, descriptive `Error` whenever
`DIALOGFLOW_PROJECT_ID`, `DIALOGFLOW_CLIENT_EMAIL` or
`DIALOGFLOW_PRIVATE_KEY` is missing after defaults are applied, naming the
missing capability; for every context suffix derived from a
`DIALOGFLOW_INPUT_CONTEXT_NAME`-prefixed key it throws unless both the
name and the matching lifespan capability are present; when all checks
pass it returns a resolved promise. -/
theorem claim_C6_validate (rawCaps : Caps) :
    (truthyCap (getCap (objAssignCaps Defaults rawCaps) "DIALOGFLOW_PROJECT_ID") = false →
      Validate rawCaps = .error "DIALOGFLOW_PROJECT_ID capability required") ∧
    (truthyCap (getCap (objAssignCaps Defaults rawCaps) "DIALOGFLOW_PROJECT_ID") = true →
      truthyCap (getCap (objAssignCaps Defaults rawCaps) "DIALOGFLOW_CLIENT_EMAIL") = false →
      Validate rawCaps = .error "DIALOGFLOW_CLIENT_EMAIL capability required") ∧
    (truthyCap (getCap (objAssignCaps Defaults rawCaps) "DIALOGFLOW_PROJECT_ID") = true →
      truthyCap (getCap (objAssignCaps Defaults rawCaps) "DIALOGFLOW_CLIENT_EMAIL") = true →
      truthyCap (getCap (objAssignCaps Defaults rawCaps) "DIALOGFLOW_PRIVATE_KEY") = false →
      Validate rawCaps = .error "DIALOGFLOW_PRIVATE_KEY capability required") ∧
    (truthyCap (getCap (objAssignCaps Defaults rawCaps) "DIALOGFLOW_PROJECT_ID") = true →
      truthyCap (getCap (objAssignCaps Defaults rawCaps) "DIALOGFLOW_CLIENT_EMAIL") = true →
      truthyCap (getCap (objAssignCaps Defaults rawCaps) "DIALOGFLOW_PRIVATE_KEY") = true →
      kbCheckThrows (getCap (objAssignCaps Defaults rawCaps) "DIALOGFLOW_ENABLE_KNOWLEDGEBASE") = false →
      ∀ sfx, (_getContextSuffixes (objAssignCaps Defaults rawCaps)).find?
          (suffixMissing (objAssignCaps Defaults rawCaps)) = some sfx →
        Validate rawCaps = .error ("DIALOGFLOW_INPUT_CONTEXT_NAME" ++ sfx ++
          " and DIALOGFLOW_INPUT_CONTEXT_LIFESPAN" ++ sfx ++ " capability required")) ∧
    (truthyCap (getCap (objAssignCaps Defaults rawCaps) "DIALOGFLOW_PROJECT_ID") = true →
      truthyCap (getCap (objAssignCaps Defaults rawCaps) "DIALOGFLOW_CLIENT_EMAIL") = true →
      truthyCap (getCap (objAssignCaps Defaults rawCaps) "DIALOGFLOW_PRIVATE_KEY") = true →
      kbCheckThrows (getCap (objAssignCaps Defaults rawCaps) "DIALOGFLOW_ENABLE_KNOWLEDGEBASE") = false →
      (_getContextSuffixes (objAssignCaps Defaults rawCaps)).find?
          (suffixMissing (objAssignCaps Defaults rawCaps)) = none →
      Validate rawCaps = .ok ()) := by
  refine ⟨?_, ?_, ?_, ?_, ?_⟩
  · intro h1
    simp [Validate, h1]
  · intro h1 h2
    simp [Validate, h1, h2]
  · intro h1 h2 h3
    simp [Validate, h1, h2, h3]
  · intro h1 h2 h3 h4 sfx h5
    simp [Validate, h1, h2, h3, h4, h5]
  · intro h1 h2 h3 h4 h5
    simp [Validate, h1, h2, h3, h4, h5]

set_option maxRecDepth 8192 in
/-- Witness for C6: a caps object with credentials and a complete
context-name/lifespan pair validates; the hypotheses are checked at the
concrete caps. -/
theorem claim_C6_validate_witness :
    Validate
        [ ("DIALOGFLOW_PROJECT_ID", .str "p")
        , ("DIALOGFLOW_CLIENT_EMAIL", .str "e")
        , ("DIALOGFLOW_PRIVATE_KEY", .str "k")
        , ("DIALOGFLOW_INPUT_CONTEXT_NAME1", .str "ctx")
        , ("DIALOGFLOW_INPUT_CONTEXT_LIFESPAN1", .num 3) ] = .ok () := by
  have h := claim_C6_validate
    [ ("DIALOGFLOW_PROJECT_ID", .str "p")
    , ("DIALOGFLOW_CLIENT_EMAIL", .str "e")
    , ("DIALOGFLOW_PRIVATE_KEY", .str "k")
    , ("DIALOGFLOW_INPUT_CONTEXT_NAME1", .str "ctx")
    , ("DIALOGFLOW_INPUT_CONTEXT_LIFESPAN1", .num 3) ]
  exact h.2.2.2.2 (by decide) (by decide) (by decide) (by decide) (by decide)

/-- C5: with the button-events toggle on and a first button carrying a
truthy text or payload, `UserSays` sends an event query — a JSON-parsable
payload is merged over the language code, a non-JSON payload (or the
button text fallback) becomes the event name; otherwise the request
carries `queryInput.text` with `msg.messageText` and the language code.
The request `UserSays` sends is the built request. -/
theorem claim_C5_button_events (caps : ConnCaps) (mimeLookup : String → Option String)
    (jsonParse : String → Option (List (String × String)))
    (detectIntent : DFRequest → Except String DFResponse)
    (st : DFState) (msg : UserMsg) (hs : st.sessionClient = true) :
    (UserSays caps mimeLookup jsonParse detectIntent st msg).requests =
      [buildRequest caps jsonParse st msg] ∧
    (∀ b0 rest obj, caps.buttonEvents = true → msg.buttons = some (b0 :: rest) →
      (truthyStr b0.text || truthyStr b0.payload) = true →
      jsonParse ((jsOrStr b0.payload b0.text).getD "") = some obj →
      (buildRequest caps jsonParse st msg).queryInput =
        .queryEvent (objAssignStr [("languageCode", caps.languageCode)] obj)) ∧
    (∀ b0 rest, caps.buttonEvents = true → msg.buttons = some (b0 :: rest) →
      (truthyStr b0.text || truthyStr b0.payload) = true →
      jsonParse ((jsOrStr b0.payload b0.text).getD "") = none →
      (buildRequest caps jsonParse st msg).queryInput =
        .queryEvent [("name", (jsOrStr b0.payload b0.text).getD "")
                    , ("languageCode", caps.languageCode)]) ∧
    (buttonEventTriggered caps msg = false →
      (buildRequest caps jsonParse st msg).queryInput =
        .queryText msg.messageText caps.languageCode) := by
  refine ⟨?_, ?_, ?_, ?_⟩
  · simp only [UserSays, hs]
    cases detectIntent (buildRequest caps jsonParse st msg) <;> simp
  · intro b0 rest obj hbe hb ht hj
    have htrig : buttonEventTriggered caps msg = true := by
      simp [buttonEventTriggered, hbe, hb, ht]
    simp [buildRequest, buildQueryInput, htrig, hb, hj]
  · intro b0 rest hbe hb ht hj
    have htrig : buttonEventTriggered caps msg = true := by
      simp [buttonEventTriggered, hbe, hb, ht]
    simp [buildRequest, buildQueryInput, htrig, hb, hj]
  · intro h
    simp [buildRequest, buildQueryInput, h]

/-- Witness for C5 at a concrete message whose first button has a
non-JSON payload: the payload becomes the event name. -/
theorem claim_C5_button_events_witness :
    (UserSays
        { projectId := "p", languageCode := "en-US", buttonEvents := true
          outputPlatform := none, forceIntentResolution := true
          fallbackIntents := ["Default Fallback Intent"] }
        (fun _ => none) (fun _ => none) (fun _ => .error "down")
        { sessionClient := true, sessionPath := "s", conversationId := "c"
          queryParams := { contexts := [], knowledgeBaseNames := none } }
        { messageText := some "hi"
          buttons := some [{ text := none, payload := some "MY_EVENT" }]
          SET_DIALOGFLOW_CONTEXT := [], SET_DIALOGFLOW_QUERYPARAMS := none }).requests =
      [buildRequest
        { projectId := "p", languageCode := "en-US", buttonEvents := true
          outputPlatform := none, forceIntentResolution := true
          fallbackIntents := ["Default Fallback Intent"] }
        (fun _ => none)
        { sessionClient := true, sessionPath := "s", conversationId := "c"
          queryParams := { contexts := [], knowledgeBaseNames := none } }
        { messageText := some "hi"
          buttons := some [{ text := none, payload := some "MY_EVENT" }]
          SET_DIALOGFLOW_CONTEXT := [], SET_DIALOGFLOW_QUERYPARAMS := none }] ∧
    (buildRequest
        { projectId := "p", languageCode := "en-US", buttonEvents := true
          outputPlatform := none, forceIntentResolution := true
          fallbackIntents := ["Default Fallback Intent"] }
        (fun _ => none)
        { sessionClient := true, sessionPath := "s", conversationId := "c"
          queryParams := { contexts := [], knowledgeBaseNames := none } }
        { messageText := some "hi"
          buttons := some [{ text := none, payload := some "MY_EVENT" }]
          SET_DIALOGFLOW_CONTEXT := [], SET_DIALOGFLOW_QUERYPARAMS := none }).queryInput =
      .queryEvent [("name", "MY_EVENT"), ("languageCode", "en-US")] := by
  have h := claim_C5_button_events
    { projectId := "p", languageCode := "en-US", buttonEvents := true
      outputPlatform := none, forceIntentResolution := true
      fallbackIntents := ["Default Fallback Intent"] }
    (fun _ => none) (fun _ => none) (fun _ => .error "down")
    { sessionClient := true, sessionPath := "s", conversationId := "c"
      queryParams := { contexts := [], knowledgeBaseNames := none } }
    { messageText := some "hi"
      buttons := some [{ text := none, payload := some "MY_EVENT" }]
      SET_DIALOGFLOW_CONTEXT := [], SET_DIALOGFLOW_QUERYPARAMS := none }
    rfl
  refine ⟨h.1, ?_⟩
  have h3 := h.2.2.1 { text := none, payload := some "MY_EVENT" } [] rfl rfl (by decide) rfl
  simpa using h3

/-- C7: whenever the external `detectIntent` call rejects, the promise
returned by `UserSays` rejects with `Cannot send message to dialogflow
container: ` followed by the original error message; `detectIntent` is
invoked exactly once per `UserSays` call, with no retry. -/
theorem claim_C7_error_wrap (caps : ConnCaps) (mimeLookup : String → Option String)
    (jsonParse : String → Option (List (String × String)))
    (detectIntent : DFRequest → Except String DFResponse)
    (st : DFState) (msg : UserMsg) (e : String)
    (hs : st.sessionClient = true)
    (he : detectIntent (buildRequest caps jsonParse st msg) = .error e) :
    (UserSays caps mimeLookup jsonParse detectIntent st msg).result =
      .error ("Cannot send message to dialogflow container: " ++ e) ∧
    (UserSays caps mimeLookup jsonParse detectIntent st msg).requests =
      [buildRequest caps jsonParse st msg] := by
  constructor
  · simp [UserSays, hs, he]
  · simp [UserSays, hs, he]

/-- Witness for C7 at a concrete failing external client. -/
theorem claim_C7_error_wrap_witness :
    (UserSays
        { projectId := "p", languageCode := "en-US", buttonEvents := true
          outputPlatform := none, forceIntentResolution := true
          fallbackIntents := ["Default Fallback Intent"] }
        (fun _ => none) (fun _ => none) (fun _ => .error "boom")
        { sessionClient := true, sessionPath := "s", conversationId := "c"
          queryParams := { contexts := [], knowledgeBaseNames := none } }
        { messageText := some "hi", buttons := none
          SET_DIALOGFLOW_CONTEXT := [], SET_DIALOGFLOW_QUERYPARAMS := none }).result =
      .error "Cannot send message to dialogflow container: boom" := by
  have h := claim_C7_error_wrap
    { projectId := "p", languageCode := "en-US", buttonEvents := true
      outputPlatform := none, forceIntentResolution := true
      fallbackIntents := ["Default Fallback Intent"] }
    (fun _ => none) (fun _ => none) (fun _ => .error "boom")
    { sessionClient := true, sessionPath := "s", conversationId := "c"
      queryParams := { contexts := [], knowledgeBaseNames := none } }
    { messageText := some "hi", buttons := none
      SET_DIALOGFLOW_CONTEXT := [], SET_DIALOGFLOW_QUERYPARAMS := none }
    "boom" rfl rfl
  exact h.1

/-- Elements of a one-step context merge come from the accumulator or are
the merged context itself. -/
lemma mem_mergeOneContext (acc : List Context) (x c : Context)
    (h : c ∈ mergeOneContext acc x) : c ∈ acc ∨ c = x := by
  unfold mergeOneContext at h
  cases hidx : acc.findIdx? (fun y => y.name == x.name) with
  | some i =>
      rw [hidx] at h
      exact List.mem_or_eq_of_mem_set h
  | none =>
      rw [hidx] at h
      simpa using h

/-- Elements of the full context merge come from the accumulator or from
the merged custom contexts. -/
lemma mem_mergeCustomContexts (l : List Context) :
    ∀ acc c, c ∈ mergeCustomContexts acc l → c ∈ acc ∨ c ∈ l := by
  induction l with
  | nil =>
      intro acc c h
      exact Or.inl h
  | cons x xs ih =>
      intro acc c h
      rcases ih (mergeOneContext acc x) c h with h1 | h2
      · rcases mem_mergeOneContext acc x c h1 with ha | he
        · exact Or.inl ha
        · exact Or.inr (by simp [he])
      · exact Or.inr (by simp [h2])

/-- C9: after a successful `UserSays` turn the stored
`queryParams.contexts` is reset to the empty array, so the contexts seeded
by `Start` or supplied on the message are sent exactly once: every context
in the next turn's request (absent a query-params override) stems from
that next message's own custom contexts. -/
theorem claim_C9_context_reset (caps : ConnCaps) (mimeLookup : String → Option String)
    (jsonParse : String → Option (List (String × String)))
    (detectIntent : DFRequest → Except String DFResponse)
    (st : DFState) (msg msg2 : UserMsg) (resp : DFResponse) (c : Context)
    (hs : st.sessionClient = true)
    (hok : detectIntent (buildRequest caps jsonParse st msg) = .ok resp)
    (hp : msg2.SET_DIALOGFLOW_QUERYPARAMS = none) :
    (UserSays caps mimeLookup jsonParse detectIntent st msg).state.queryParams.contexts = [] ∧
    (c ∈ (buildRequest caps jsonParse
        (UserSays caps mimeLookup jsonParse detectIntent st msg).state msg2).queryParams.contexts →
      c ∈ _extractCustomContexts caps.projectId
        (UserSays caps mimeLookup jsonParse detectIntent st msg).state.conversationId msg2) := by
  have hstate :
      (UserSays caps mimeLookup jsonParse detectIntent st msg).state.queryParams.contexts = [] := by
    simp [UserSays, hs, hok]
  refine ⟨hstate, fun hc => ?_⟩
  rw [buildRequest] at hc
  simp only [hp, applyPatch, QueryParamsPatch.empty, Option.getD_none, Option.getD] at hc
  rw [pendingQueryParams] at hc
  simp only [hstate] at hc
  have hconv :
      (UserSays caps mimeLookup jsonParse detectIntent st msg).state.conversationId =
        st.conversationId := by
    simp [UserSays, hs, hok]
  rw [hconv] at hc ⊢
  rcases mem_mergeCustomContexts _ _ _ hc with h1 | h2
  · simp at h1
  · exact h2

/-- Witness for C9: a concrete successful turn clears the pending
contexts, and the context of a follow-up message is its own. -/
theorem claim_C9_context_reset_witness :
    (UserSays
        { projectId := "p", languageCode := "en-US", buttonEvents := true
          outputPlatform := none, forceIntentResolution := true
          fallbackIntents := ["Default Fallback Intent"] }
        (fun _ => none) (fun _ => none)
        (fun _ => .ok ⟨{ intent := none, intentDetectionConfidence := none
                         parameters := none, outputContexts := [], fulfillmentMessages := [] }⟩)
        { sessionClient := true, sessionPath := "s", conversationId := "conv"
          queryParams := { contexts := [⟨"ctx/start", some 1, none⟩], knowledgeBaseNames := none } }
        { messageText := some "hi", buttons := none
          SET_DIALOGFLOW_CONTEXT := [], SET_DIALOGFLOW_QUERYPARAMS := none }).state.queryParams.contexts = [] ∧
    _createCustomContext "p" "conv" "next" (.jsNum 2) none ∈
      _extractCustomContexts "p" "conv"
        { messageText := some "again", buttons := none
          SET_DIALOGFLOW_CONTEXT := [("next", .prim (.jsNum 2))]
          SET_DIALOGFLOW_QUERYPARAMS := none } := by
  have h := claim_C9_context_reset
    { projectId := "p", languageCode := "en-US", buttonEvents := true
      outputPlatform := none, forceIntentResolution := true
      fallbackIntents := ["Default Fallback Intent"] }
    (fun _ => none) (fun _ => none)
    (fun _ => .ok ⟨{ intent := none, intentDetectionConfidence := none
                     parameters := none, outputContexts := [], fulfillmentMessages := [] }⟩)
    { sessionClient := true, sessionPath := "s", conversationId := "conv"
      queryParams := { contexts := [⟨"ctx/start", some 1, none⟩], knowledgeBaseNames := none } }
    { messageText := some "hi", buttons := none
      SET_DIALOGFLOW_CONTEXT := [], SET_DIALOGFLOW_QUERYPARAMS := none }
    { messageText := some "again", buttons := none
      SET_DIALOGFLOW_CONTEXT := [("next", .prim (.jsNum 2))]
      SET_DIALOGFLOW_QUERYPARAMS := none }
    ⟨{ intent := none, intentDetectionConfidence := none
       parameters := none, outputContexts := [], fulfillmentMessages := [] }⟩
    (_createCustomContext "p" "conv" "next" (.jsNum 2) none)
    rfl rfl rfl
  refine ⟨h.1, ?_⟩
  apply h.2
  decide

/-- C3: the populated fields of a delivered bot message are decided by the
first matching response variant — text sets `messageText` to
`text.text[0]`; quickReplies sets one button per quick-reply string; card
sets `messageText` to the card title and a one-element card list with
title, image and buttons; carouselSelect sets one card per item (title,
description, image, info-key button); suggestions sets one button per
suggestion title; a fulfillment message matching no known variant is not
delivered at all, and every delivered message's fields stem from an
accepted fulfillment message (or are the bare force-resolution record). -/
theorem claim_C3_response_variants (mimeLookup : String → Option String)
    (fm : FulfillmentMessage) :
    (∀ ts, fm.text = some ts →
      normalizeFulfillment mimeLookup fm =
        some { BotMsgFields.empty with messageText := ts.head? }) ∧
    (∀ qs, fm.text = none → fm.simpleResponses = none → fm.image = none →
      fm.quickReplies = some qs →
      normalizeFulfillment mimeLookup fm =
        some { BotMsgFields.empty with
          buttons := some (qs.map (fun q => { text := q, payload := none })) }) ∧
    (∀ c, fm.text = none → fm.simpleResponses = none → fm.image = none →
      fm.quickReplies = none → fm.card = some c →
      normalizeFulfillment mimeLookup fm =
        some { BotMsgFields.empty with
          messageText := c.title
          cards := some [{ text := c.title
                           subtext := none
                           image := c.imageUri.map (fun uri =>
                             { mediaUri := uri
                               mimeType := mimeOf mimeLookup uri
                               altText := none })
                           buttons := c.buttons.map (List.map (fun q =>
                             { text := q.text, payload := q.postback })) }] }) ∧
    (∀ items, fm.text = none → fm.simpleResponses = none → fm.image = none →
      fm.quickReplies = none → fm.card = none → fm.basicCard = none →
      fm.listSelect = none → fm.carouselSelect = some items →
      normalizeFulfillment mimeLookup fm =
        some { BotMsgFields.empty with
          cards := some (items.map (itemToCard mimeLookup)) }) ∧
    (∀ sgs, fm.text = none → fm.simpleResponses = none → fm.image = none →
      fm.quickReplies = none → fm.card = none → fm.basicCard = none →
      fm.listSelect = none → fm.carouselSelect = none →
      fm.suggestions = some ⟨some sgs⟩ →
      normalizeFulfillment mimeLookup fm =
        some { BotMsgFields.empty with
          buttons := some (sgs.map (fun t => { text := t, payload := none })) }) ∧
    (fm.text = none → fm.simpleResponses = none → fm.image = none →
      fm.quickReplies = none → fm.card = none → fm.basicCard = none →
      fm.listSelect = none → fm.carouselSelect = none → fm.suggestions = none →
      fm.linkOutSuggestion = none →
      normalizeFulfillment mimeLookup fm = none) ∧
    (∀ caps qr b, b ∈ processResponse caps mimeLookup qr →
      b.fields = BotMsgFields.empty ∨
      ∃ fm2, fm2 ∈ selectFulfillmentMessages caps qr ∧
        normalizeFulfillment mimeLookup fm2 = some b.fields) := by
  refine ⟨?_, ?_, ?_, ?_, ?_, ?_, ?_⟩
  · intro ts h1
    simp [normalizeFulfillment, h1]
  · intro qs h1 h2 h3 h4
    simp [normalizeFulfillment, h1, h2, h3, h4]
  · intro c h1 h2 h3 h4 h5
    simp [normalizeFulfillment, h1, h2, h3, h4, h5]
  · intro items h1 h2 h3 h4 h5 h6 h7 h8
    simp [normalizeFulfillment, h1, h2, h3, h4, h5, h6, h7, h8]
  · intro sgs h1 h2 h3 h4 h5 h6 h7 h8 h9
    simp [normalizeFulfillment, h1, h2, h3, h4, h5, h6, h7, h8, h9]
  · intro h1 h2 h3 h4 h5 h6 h7 h8 h9 h10
    simp [normalizeFulfillment, h1, h2, h3, h4, h5, h6, h7, h8, h9, h10]
  · intro caps qr b hb
    unfold processResponse at hb
    by_cases hf : caps.forceIntentResolution = true ∧
        ((selectFulfillmentMessages caps qr).filterMap (fun fm2 =>
          (normalizeFulfillment mimeLookup fm2).map (fun flds =>
            ({ nlpIntent := _extractIntent caps qr, nlpEntities := _extractEntities qr
               fields := flds } : BotSays)))).isEmpty = true
    · simp only [hf, and_self, if_true, List.mem_append, List.mem_singleton] at hb
      rcases hb with hb | hb
      · rcases List.mem_filterMap.mp hb with ⟨fm2, hfm2, hmap⟩
        rcases Option.map_eq_some'.mp hmap with ⟨flds, hn, hbs⟩
        right
        exact ⟨fm2, hfm2, by rw [hn, ← hbs]⟩
      · left
        rw [hb]
    · rw [if_neg (by simpa using hf)] at hb
      rcases List.mem_filterMap.mp hb with ⟨fm2, hfm2, hmap⟩
      rcases Option.map_eq_some'.mp hmap with ⟨flds, hn, hbs⟩
      right
      exact ⟨fm2, hfm2, by rw [hn, ← hbs]⟩

/-- Witness for C3 at two concrete fulfillment messages: a text variant
and a message with no known variant. -/
theorem claim_C3_response_variants_witness :
    normalizeFulfillment (fun _ => none)
        { FulfillmentMessage.empty with text := some ["hello", "alt"] } =
      some { BotMsgFields.empty with messageText := some "hello" } ∧
    normalizeFulfillment (fun _ => none) FulfillmentMessage.empty = none := by
  constructor
  · exact (claim_C3_response_variants (fun _ => none)
      { FulfillmentMessage.empty with text := some ["hello", "alt"] }).1
      ["hello", "alt"] rfl
  · exact (claim_C3_response_variants (fun _ => none)
      FulfillmentMessage.empty).2.2.2.2.2.1
      rfl rfl rfl rfl rfl rfl rfl rfl rfl rfl

/-- Folding a dotted prefix into the head of a path. -/
lemma joinPath_pair_glue (a b : String) (p : List String) :
    joinPath ((a ++ "." ++ b) :: p) = joinPath (a :: b :: p) := by
  cases p with
  | nil => rfl
  | cons c l => simp [joinPath, String.append_assoc]

/-- The scalar emission guard agrees with the spec-side keep predicate. -/
lemma scalarEntity_spec (key : String) (v : JsScalar) :
    scalarEntity key v =
      if specScalarKeep v then [{ name := key, value := v.jsToString }] else [] := by
  cases v <;>
    simp [scalarEntity, specScalarKeep, JsScalar.isNil, JsScalar.isString, JsScalar.strLen,
      string_length_pos_iff]

mutual

/-- With a nonempty accumulated key, `_extractEntityValues` produces the
spec-side leaves with the key prepended to their dot-joined paths. -/
theorem extractVal_spec (key : String) (hk : key ≠ "") (f : PField) :
    _extractEntityValues key f =
      (specLeaves f).map (fun pv =>
        ({ name := joinPath (key :: pv.1), value := pv.2 } : Entity)) := by
  cases f with
  | numberValue v =>
      rw [_extractEntityValues, specLeaves, scalarEntity_spec]
      split <;> simp [joinPath]
  | stringValue v =>
      rw [_extractEntityValues, specLeaves, scalarEntity_spec]
      split <;> simp [joinPath]
  | boolValue v =>
      rw [_extractEntityValues, specLeaves, scalarEntity_spec]
      split <;> simp [joinPath]
  | nullValue v =>
      rw [_extractEntityValues, specLeaves, scalarEntity_spec]
      split <;> simp [joinPath]
  | structValue fields =>
      rw [_extractEntityValues, specLeaves]
      exact extractFields_spec key hk fields
  | listValue values =>
      rw [_extractEntityValues, specLeaves]
      exact extractList_spec key hk 0 values
  | unsupported k =>
      rw [_extractEntityValues, specLeaves]
      simp

/-- With a nonempty key prefix, `_extractEntitiesFromFields` produces the
spec-side leaves of the field list with the prefix prepended. -/
theorem extractFields_spec (pfx : String) (hp : pfx ≠ "") (fields : List (String × PField)) :
    _extractEntitiesFromFields pfx fields =
      (specLeavesFields fields).map (fun pv =>
        ({ name := joinPath (pfx :: pv.1), value := pv.2 } : Entity)) := by
  cases fields with
  | nil =>
      rw [_extractEntitiesFromFields, specLeavesFields]
      simp
  | cons kf rest =>
      obtain ⟨k, f⟩ := kf
      have hkey : dotJoin pfx k = pfx ++ "." ++ k := by
        rw [dotJoin, if_neg]
        simpa [String.isEmpty_iff] using hp
      have h1 := extractVal_spec (pfx ++ "." ++ k) (append_dot_ne pfx k) f
      have h2 := extractFields_spec pfx hp rest
      rw [_extractEntitiesFromFields, specLeavesFields, hkey, h1, h2]
      simp only [List.map_append, List.map_map]
      congr 1
      apply List.map_congr_left
      intro pv _
      simp [Function.comp, joinPath_pair_glue]

/-- With a nonempty accumulated key, the list-value walk produces the
spec-side leaves with the element indices in the paths. -/
theorem extractList_spec (key : String) (hk : key ≠ "") (i : Nat) (values : List PField) :
    _extractListValues key i values =
      (specLeavesList i values).map (fun pv =>
        ({ name := joinPath (key :: pv.1), value := pv.2 } : Entity)) := by
  cases values with
  | nil =>
      rw [_extractListValues, specLeavesList]
      simp
  | cons f rest =>
      have h1 := extractVal_spec (key ++ "." ++ toString i) (append_dot_ne key (toString i)) f
      have h2 := extractList_spec key hk (i + 1) rest
      rw [_extractListValues, specLeavesList, h1, h2]
      simp only [List.map_append, List.map_map]
      congr 1
      apply List.map_congr_left
      intro pv _
      simp [Function.comp, joinPath_pair_glue]

end

/-- At the tree root the extractor agrees with the spec-side entity list
whenever the top-level field keys are nonempty. -/
lemma extractFields_top (fields : List (String × PField))
    (hk : ∀ kv ∈ fields, kv.1 ≠ "") :
    _extractEntitiesFromFields "" fields = specExtractEntities fields := by
  induction fields with
  | nil =>
      rw [_extractEntitiesFromFields]
      simp [specExtractEntities, specLeavesFields]
  | cons kf rest ih =>
      obtain ⟨k, f⟩ := kf
      have hk0 : k ≠ "" := hk (k, f) (by simp)
      have hrest : ∀ kv ∈ rest, kv.1 ≠ "" := fun kv hkv => hk kv (by simp [hkv])
      have hkey : dotJoin "" k = k := rfl
      have h1 := extractVal_spec k hk0 f
      rw [_extractEntitiesFromFields, hkey, h1, ih hrest]
      simp [specExtractEntities, specLeavesFields, List.map_map, Function.comp]

/-- Counterexample to C2 as stated: on a parameter tree with an empty
top-level field key over a nested struct, the code's `keyPrefix ?
keyPrefix + '.' : ''` drops the dot after the empty prefix, so the entity
is named `a` while the dot-joined path of the field keys `["", "a"]` is
`.a`. -/
theorem claim_C2_counterexample :
    _extractEntities
        { intent := none, intentDetectionConfidence := none
          parameters := some [("", .structValue [("a", .stringValue (.jsStr "x"))])]
          outputContexts := [], fulfillmentMessages := [] } =
      [{ name := "a", value := "x" }] ∧
    specExtractEntities [("", .structValue [("a", .stringValue (.jsStr "x"))])] =
      [{ name := ".a", value := "x" }] ∧
    _extractEntities
        { intent := none, intentDetectionConfidence := none
          parameters := some [("", .structValue [("a", .stringValue (.jsStr "x"))])]
          outputContexts := [], fulfillmentMessages := [] } ≠
      specExtractEntities [("", .structValue [("a", .stringValue (.jsStr "x"))])] := by
  refine ⟨by decide, by decide, by decide⟩

/-- C2 as amended: for every response parameter tree whose top-level field
keys are nonempty, entity extraction returns one entity per kept scalar
leaf, named by the dot-joined path of field keys with zero-based indices
for list elements, with null/undefined and empty-string leaves skipped,
struct nodes recursed into and unsupported kinds skipped (on an empty
top-level key the dot after the empty accumulated prefix is dropped). -/
theorem claim_C2_extract_entities (qr : QueryResult) (fields : List (String × PField))
    (hq : qr.parameters = some fields) (hk : ∀ kv ∈ fields, kv.1 ≠ "") :
    _extractEntities qr = specExtractEntities fields := by
  rw [_extractEntities.eq_def, hq]
  exact extractFields_top fields hk

/-- Witness for the amended C2 at a concrete tree with a list, a nested
struct, a skipped empty-string leaf and a skipped unsupported kind. -/
theorem claim_C2_extract_entities_witness :
    _extractEntities
        { intent := none, intentDetectionConfidence := none
          parameters := some
            [ ("a", .listValue [.numberValue (.jsNum 3), .stringValue (.jsStr "")])
            , ("b", .structValue [("c", .boolValue (.jsBool true))])
            , ("d", .unsupported "weird") ]
          outputContexts := [], fulfillmentMessages := [] } =
      specExtractEntities
        [ ("a", .listValue [.numberValue (.jsNum 3), .stringValue (.jsStr "")])
        , ("b", .structValue [("c", .boolValue (.jsBool true))])
        , ("d", .unsupported "weird") ] ∧
    specExtractEntities
        [ ("a", .listValue [.numberValue (.jsNum 3), .stringValue (.jsStr "")])
        , ("b", .structValue [("c", .boolValue (.jsBool true))])
        , ("d", .unsupported "weird") ] =
      [{ name := "a.0", value := "3" }, { name := "b.c", value := "true" }] := by
  constructor
  · exact claim_C2_extract_entities
      { intent := none, intentDetectionConfidence := none
        parameters := some
          [ ("a", .listValue [.numberValue (.jsNum 3), .stringValue (.jsStr "")])
          , ("b", .structValue [("c", .boolValue (.jsBool true))])
          , ("d", .unsupported "weird") ]
        outputContexts := [], fulfillmentMessages := [] }
      [ ("a", .listValue [.numberValue (.jsNum 3), .stringValue (.jsStr "")])
      , ("b", .structValue [("c", .boolValue (.jsBool true))])
      , ("d", .unsupported "weird") ]
      rfl (by decide)
  · decide
